import Mathlib

/-!
Verification of the pricecious check-execution pipeline against its
specification. Prices, confidences and timestamps are modelled as rationals
(the Python floats of the source carry small decimal values); optional
columns become `Option`; Python exceptions become `Except String`.
-/

namespace Pricecious

/-- Notification profile fields the check pipeline reads
(src/app/models.py `NotificationProfile`). -/
structure NotificationProfile where
  apprise_url : String
  notify_on_price_drop : Bool
  price_drop_threshold_percent : ℚ
  notify_on_target_price : Bool
  notify_on_stock_change : Bool
  check_interval_minutes : Option Int
  deriving DecidableEq, Repr

/-- Item fields the check pipeline reads and writes (src/app/models.py `Item`).
`last_checked` is a timestamp in minutes since an arbitrary epoch. -/
structure Item where
  id : Nat
  is_active : Bool
  is_refreshing : Bool
  check_interval_minutes : Option Int
  notification_profile : Option NotificationProfile
  last_checked : Option ℚ
  current_price : Option ℚ
  current_price_confidence : Option ℚ
  in_stock : Option Bool
  in_stock_confidence : Option ℚ
  target_price : Option ℚ
  last_error : Option String
  deriving DecidableEq, Repr

/-- Python truthiness of an optional integer: `None` and `0` are falsy. -/
def intTruthy : Option Int → Bool
  | none => false
  | some n => n != 0

/-- Python `x or g` for an optional integer `x`: `g` when `x` is `None` or `0`. -/
def intOrElse (x : Option Int) (g : Int) : Int :=
  match x with
  | none => g
  | some n => if n != 0 then n else g

/-- Effective-interval resolution of the Due-Item Selector, inlined in
`ItemService.get_due_items` (src/app/services/item_service.py:202-205):
`interval = item.check_interval_minutes`;
`if not interval and item.notification_profile: interval = profile.check_interval_minutes`;
`interval = max(interval or global_int, 5)`. -/
def effectiveInterval (item : Item) (globalInt : Int) : Int :=
  let interval := item.check_interval_minutes
  let interval :=
    if !intTruthy interval then
      match item.notification_profile with
      | some p => p.check_interval_minutes
      | none => interval
    else interval
  max (intOrElse interval globalInt) 5

/-- The spec's statement of the same rule, written from its words alone:
item interval if present and non-zero, else profile interval if present and
non-zero, else the global interval, clamped to at least 5 minutes. -/
def specPick (x : Option Int) (fallback : Int) : Int :=
  match x with
  | some n => if n ≠ 0 then n else fallback
  | none => fallback

/-- Spec-side effective interval over the (item, profile, global) triple. -/
def specEffectiveInterval (itemInt profileInt : Option Int) (globalInt : Int) : Int :=
  max (specPick itemInt (specPick profileInt globalInt)) 5

/-- The profile interval of an item as the spec's triple sees it: absent when
the item has no profile or the profile has no interval. -/
def profileInterval (item : Item) : Option Int :=
  item.notification_profile.bind NotificationProfile.check_interval_minutes

/-- Python `int(q)` for a non-negative rational: truncation toward zero. -/
def pyInt (q : ℚ) : Int :=
  if 0 ≤ q then q.floor else -((-q).floor)

/-- The per-item decision of `ItemService.get_due_items`
(src/app/services/item_service.py:197-222): skip items mid-refresh, emit
`(id, interval, -1)` for never-checked items, and `(id, interval, minutes)`
for items whose time since last check reached the effective interval. -/
def dueEntry (globalInt : Int) (now : ℚ) (item : Item) : Option (Nat × Int × Int) :=
  if item.is_refreshing then none
  else
    let interval := effectiveInterval item globalInt
    match item.last_checked with
    | none => some (item.id, interval, -1)
    | some t =>
      let timeSince := now - t
      if (interval : ℚ) ≤ timeSince then some (item.id, interval, pyInt timeSince)
      else none

/-- `ItemService.get_due_items` (src/app/services/item_service.py:159-224):
active items only, folded through `dueEntry`. -/
def get_due_items (items : List Item) (globalInt : Int) (now : ℚ) :
    List (Nat × Int × Int) :=
  (items.filter Item.is_active).filterMap (dueEntry globalInt now)

/-! ## AI extraction schema (src/app/ai_schema.py) -/

/-- A JSON-ish value as the pydantic `mode="before"` validators receive it. -/
inductive JVal where
  | jnull
  | jnum (q : ℚ)
  | jstr (s : String)
  | jbool (b : Bool)
  deriving DecidableEq, Repr

/-- `pre` is an initial segment of `s` (Python's `str.startswith`), computed
over character lists so concrete instances evaluate. -/
def beginsWith (pre s : String) : Bool :=
  pre.toList.isPrefixOf s.toList

/-- Split a character list at every occurrence of `c` (the semantics of
Python's `str.split(c)` on all-kept empty parts). -/
def splitOnChar (c : Char) : List Char → List (List Char)
  | [] => [[]]
  | x :: xs =>
    let rest := splitOnChar c xs
    if x == c then [] :: rest
    else
      match rest with
      | [] => [[x]]
      | y :: ys => (x :: y) :: ys

/-- Numeric value of a digit list (most significant first). -/
def natOfDigits (l : List Char) : Nat :=
  l.foldl (fun n c => n * 10 + (c.toNat - '0'.toNat)) 0

/-- Python `float(s)` for a string of digits and at most one dot, the only
shape `normalize_price` can produce after stripping: `"12"`, `"1.5"`, `".5"`
and `"5."` parse; `""`, `"."` and `"1.2.3"` raise `ValueError` (`none`). -/
def parseDigitsDotFloat (s : String) : Option ℚ :=
  match splitOnChar '.' s.toList with
  | [i] =>
    if i ≠ [] ∧ i.all Char.isDigit then some ((natOfDigits i : ℚ)) else none
  | [i, f] =>
    if (i ≠ [] ∨ f ≠ []) ∧ i.all Char.isDigit ∧ f.all Char.isDigit then
      some ((natOfDigits i : ℚ) + (natOfDigits f : ℚ) / ((10 ^ f.length : ℕ) : ℚ))
    else none
  | _ => none

/-- Python `float(s)` for the strings `clamp_confidence` may meet: an optional
sign followed by digits/dot (exponent and `inf`/`nan` spellings are not
modelled; no claim exercises them). -/
def parseSignedFloat (s : String) : Option ℚ :=
  match s.toList with
  | '-' :: rest => (parseDigitsDotFloat (String.mk rest)).map (fun q => -q)
  | '+' :: rest => parseDigitsDotFloat (String.mk rest)
  | _ => parseDigitsDotFloat s

/-- Python `min(a, b)`: the first argument wins ties. -/
def pyMin (a b : ℚ) : ℚ := if a ≤ b then a else b

/-- Python `max(a, b)`: the first argument wins ties. -/
def pyMax (a b : ℚ) : ℚ := if b ≤ a then a else b

/-- `max(0.0, min(1.0, v))` of the validator. -/
def clamp01 (q : ℚ) : ℚ := pyMax 0 (pyMin 1 q)

/-- `AIExtractionResponse.clamp_confidence` (src/app/ai_schema.py:58-64):
`None` becomes `0.0`, everything else is `float(v)` clamped into `[0,1]`. -/
def clamp_confidence : JVal → Except String ℚ
  | .jnull => .ok 0
  | .jnum q => .ok (clamp01 q)
  | .jbool b => .ok (clamp01 (if b then 1 else 0))
  | .jstr s =>
    match parseSignedFloat s with
    | some q => .ok (clamp01 q)
    | none => .error "ValueError: could not convert string to float"

/-- `AIExtractionResponse.normalize_price` (src/app/ai_schema.py:66-78):
`None`/`"null"`/`""` become `None`; strings are stripped to digits and dots
(`re.sub(r"[^\d.]", "", v)`) then parsed as float, an empty residue becoming
`None`; other values pass through `float(v)` unchanged. -/
def normalize_price : JVal → Except String (Option ℚ)
  | .jnull => .ok none
  | .jstr s =>
    if s = "null" ∨ s = "" then .ok none
    else
      let cleaned := String.mk (s.toList.filter fun c => c.isDigit ∨ c == '.')
      if cleaned = "" then .ok none
      else
        match parseDigitsDotFloat cleaned with
        | some q => .ok (some q)
        | none => .error "ValueError: could not convert string to float"
  | .jnum q => .ok (some q)
  | .jbool b => .ok (some (if b then 1 else 0))

/-- Python `s.lower().strip()` over character lists. -/
def pyLowerStrip (s : String) : String :=
  String.mk
    ((((s.toList.map Char.toLower).dropWhile Char.isWhitespace).reverse.dropWhile
      Char.isWhitespace).reverse)

/-- `AIExtractionResponse.normalize_stock` (src/app/ai_schema.py:80-93):
`None`/`"null"` become `None`; strings are matched against a fixed vocabulary
with anything else mapping to `None`; other values pass through `bool(v)`. -/
def normalize_stock : JVal → Option Bool
  | .jnull => none
  | .jstr s =>
    if s = "null" then none
    else
      let v := pyLowerStrip s
      if v = "true" ∨ v = "yes" ∨ v = "in stock" ∨ v = "available" ∨ v = "1" then
        some true
      else if v = "false" ∨ v = "no" ∨ v = "out of stock" ∨ v = "unavailable" ∨ v = "0" then
        some false
      else none
  | .jnum q => some (decide (q ≠ 0))
  | .jbool b => some b

/-- The `source_type` literal of the schema. -/
inductive SourceType where
  | image | text | both
  deriving DecidableEq, Repr

def parseSourceType (s : String) : Except String SourceType :=
  if s = "image" then .ok .image
  else if s = "text" then .ok .text
  else if s = "both" then .ok .both
  else .error "ValidationError: source_type"

/-- Validated extraction result (`AIExtractionResponse`, src/app/ai_schema.py:22-93). -/
structure AIExtractionResponse where
  price : Option ℚ
  currency : String
  in_stock : Option Bool
  price_confidence : ℚ
  in_stock_confidence : ℚ
  source_type : SourceType
  deriving DecidableEq, Repr

/-- Construction of an `AIExtractionResponse` from raw field values: each
`mode="before"` validator runs, then the declared field constraints
(`ge=0, le=1` on the confidences, a literal check on `source_type`; the
price field itself carries no bound). -/
def mkAIExtractionResponse (price in_stock price_conf stock_conf : JVal)
    (currency : String) (source_type : String) : Except String AIExtractionResponse :=
  match normalize_price price, clamp_confidence price_conf,
      clamp_confidence stock_conf, parseSourceType source_type with
  | .ok p, .ok pc, .ok sc, .ok src =>
    if 0 ≤ pc ∧ pc ≤ 1 ∧ 0 ≤ sc ∧ sc ≤ 1 then
      .ok ⟨p, currency, normalize_stock in_stock, pc, sc, src⟩
    else .error "ValidationError: confidence out of range"
  | .error e, _, _, _ => .error e
  | _, .error e, _, _ => .error e
  | _, _, .error e, _ => .error e
  | _, _, _, .error e => .error e

/-! ## State-update engine -/

/-- Left-pad a numeral string with zeros to `d` characters. -/
def padZeros (s : String) (d : Nat) : String :=
  String.mk (List.replicate (d - s.length) '0') ++ s

/-- Fixed-point rendering of a non-negative rational with `d` decimals,
standing in for Python's `f"{x:.1f}"`/`f"{x:.2f}"` (ties rounded up rather
than to even; the claims only inspect message prefixes). -/
def fmtFixed (q : ℚ) (d : Nat) : String :=
  let scaled := q * ((10 ^ d : ℕ) : ℚ) + 1 / 2
  let m := scaled.floor.toNat
  let base := 10 ^ d
  if d = 0 then toString m
  else toString (m / base) ++ "." ++ padZeros (toString (m % base)) d

/-- The f-string of src/app/services/scheduler_service.py:121. -/
def uncertainMsg (pct conf : ℚ) : String :=
  "Uncertain: Large price change (" ++ fmtFixed pct 1 ++
    "%) with low confidence (" ++ fmtFixed conf 2 ++ ")"

/-- Extraction metadata carried to history rows (`AIExtractionMetadata`). -/
structure Metadata where
  model_name : String
  provider : String
  prompt_version : String
  repair_used : Bool
  deriving DecidableEq, Repr

/-- One `PriceHistory` row as the update step creates it. -/
structure HistoryRow where
  item_id : Nat
  price : ℚ
  screenshot_path : String
  price_confidence : ℚ
  in_stock_confidence : ℚ
  ai_model : String
  ai_provider : String
  prompt_version : String
  repair_used : Bool
  deriving DecidableEq, Repr

/-- Result of one database update step. -/
structure UpdateResult where
  item : Item
  history : List HistoryRow
  old_price : Option ℚ
  old_stock : Option Bool
  deriving DecidableEq, Repr

/-- Final `last_error` bookkeeping shared by both update revisions: an error
set during this update survives only when it is an `"Uncertain:"` message;
otherwise the field is cleared (src/app/services/scheduler_service.py:151-152:
`if not item.last_error or not item.last_error.startswith("Uncertain:"):
item.last_error = None`). -/
def keepUncertainError : Option String → Option String
  | none => none
  | some e => if beginsWith "Uncertain:" e then some e else none

/-- What the state-update engine decided about the extracted price. -/
inductive PDecision where
  | skip
  | accept (p : ℚ) (uncertain : Option String)
  | reject (msg : String)
  | divzero
  deriving DecidableEq, Repr

/-- The price decision of `update_db` in `process_item_check`
(src/app/services/scheduler_service.py:115-129): apply the price when present
and its confidence meets the threshold, flagging `"Uncertain:"` on a >20%
change at confidence <0.7; a stored previous price of 0 makes the Python
division raise (`divzero`), surfacing as the executor's error path. This
revision has no outlier guard, so it never rejects. -/
def srcDecidePrice (item : Item) (price : Option ℚ) (price_confidence thrPrice : ℚ) :
    PDecision :=
  match price with
  | none => .skip
  | some p =>
    if thrPrice ≤ price_confidence then
      match item.current_price with
      | some op =>
        if op = 0 then .divzero
        else
          let pct := |p - op| / op * 100
          if 20 < pct ∧ price_confidence < 7/10 then
            .accept p (some (uncertainMsg pct price_confidence))
          else .accept p none
      | none => .accept p none
    else .skip

/-- The write-back of `update_db` (src/app/services/scheduler_service.py:
131-156) given the price decision: stock is applied independently under its
own threshold; a history row is written whenever the extracted price is
non-null (threshold or not); `last_checked` advances, `is_refreshing` clears,
and `last_error` is cleared unless it is an `"Uncertain:"` message. -/
def srcApply (item : Item) (d : PDecision) (price : Option ℚ)
    (in_stock : Option Bool) (price_confidence in_stock_confidence : ℚ)
    (thrStock : ℚ) (screenshot_path : String) (md : Metadata) (now : ℚ) :
    UpdateResult :=
  let priced :=
    match d with
    | .accept p unc =>
      { item with
        last_error := match unc with | some m => some m | none => item.last_error,
        current_price := some p,
        current_price_confidence := some price_confidence }
    | _ => item
  let stocked :=
    match in_stock with
    | some b =>
      if thrStock ≤ in_stock_confidence then
        { priced with in_stock := some b, in_stock_confidence := some in_stock_confidence }
      else priced
    | none => priced
  let history :=
    match price with
    | some p =>
      [{ item_id := item.id, price := p, screenshot_path := screenshot_path,
         price_confidence := price_confidence,
         in_stock_confidence := in_stock_confidence,
         ai_model := md.model_name, ai_provider := md.provider,
         prompt_version := md.prompt_version, repair_used := md.repair_used }]
    | none => []
  { item := { stocked with
      last_checked := some now,
      is_refreshing := false,
      last_error := keepUncertainError stocked.last_error },
    history := history,
    old_price := item.current_price,
    old_stock := item.in_stock }

/-- `update_db` of `process_item_check`
(src/app/services/scheduler_service.py:105-156): the price decision followed
by the write-back. -/
def update_db (item : Item) (price : Option ℚ) (in_stock : Option Bool)
    (price_confidence in_stock_confidence : ℚ) (thrPrice thrStock : ℚ)
    (screenshot_path : String) (md : Metadata) (now : ℚ) :
    Except String UpdateResult :=
  match srcDecidePrice item price price_confidence thrPrice with
  | .divzero => .error "float division by zero"
  | d => .ok (srcApply item d price in_stock price_confidence in_stock_confidence
      thrStock screenshot_path md now)

/-- Confidence thresholds and the outlier settings the updated engine reads
(tests/test_outlier_logic.py passes the same four keys). -/
structure Thresholds where
  price : ℚ
  stock : ℚ
  outlier_percent : ℚ
  outlier_enabled : Bool
  deriving DecidableEq, Repr

/-- Modelled from the spec: the outlier-rejection message of the missing
`_update_item_in_db`; tests/test_outlier_logic.py requires it to contain
"Price rejected". -/
def outlierRejectMsg (pct thr : ℚ) : String :=
  "Price rejected: " ++ fmtFixed pct 1 ++ "% increase exceeds outlier threshold " ++
    fmtFixed thr 1 ++ "%"

/-- Modelled from the spec: the price decision of `_update_item_in_db`, the
latest revision of app/services/scheduler_service.py, which is not among the
source files (its unit tests, tests/test_outlier_logic.py, import it).
Spec §4.5: accept when the price is present, its confidence meets the price
threshold, and (outlier guarding is disabled, or there is no previous price,
or the percentage increase over the previous price does not exceed the
outlier threshold); reject outright when guarding is enabled and the increase
exceeds the threshold; flag an accepted price "Uncertain: …" when it differs
from the previous price by more than 20% at confidence below 0.7. A previous
price of 0 makes the percentage division raise, as in the older revision. -/
def decidePrice (item : Item) (ext_price : Option ℚ) (price_confidence : ℚ)
    (thr : Thresholds) : PDecision :=
  match ext_price with
  | none => .skip
  | some p =>
    if price_confidence < thr.price then .skip
    else
      match item.current_price with
      | none => .accept p none
      | some op =>
        if op = 0 then .divzero
        else
          let increase := (p - op) / op * 100
          if thr.outlier_enabled ∧ thr.outlier_percent < increase then
            .reject (outlierRejectMsg increase thr.outlier_percent)
          else
            let change := |p - op| / op * 100
            if 20 < change ∧ price_confidence < 7/10 then
              .accept p (some (uncertainMsg change price_confidence))
            else .accept p none

/-- Modelled from the spec: apply a price decision plus the independent stock
acceptance, advance `last_checked`, clear `is_refreshing`, write a history
row on acceptance, and record the rejection or uncertainty message (an
ordinary prior error clears; a prior "Uncertain:" message is preserved across
a clean update, as in the older revision). -/
def applyUpdate (item : Item) (d : PDecision) (ext_stock : Option Bool)
    (price_confidence stock_confidence : ℚ) (thr : Thresholds)
    (screenshot_path : String) (md : Metadata) (now : ℚ) : UpdateResult :=
  let priced :=
    match d with
    | .accept p _ =>
      { item with current_price := some p, current_price_confidence := some price_confidence }
    | _ => item
  let stocked :=
    match ext_stock with
    | some b =>
      if thr.stock ≤ stock_confidence then
        { priced with in_stock := some b, in_stock_confidence := some stock_confidence }
      else priced
    | none => priced
  let last_error :=
    match d with
    | .reject m => some m
    | .accept _ (some m) => some m
    | _ => keepUncertainError item.last_error
  let history :=
    match d with
    | .accept p _ =>
      [{ item_id := item.id, price := p, screenshot_path := screenshot_path,
         price_confidence := price_confidence,
         in_stock_confidence := stock_confidence,
         ai_model := md.model_name, ai_provider := md.provider,
         prompt_version := md.prompt_version, repair_used := md.repair_used }]
    | _ => []
  { item := { stocked with
      last_checked := some now, is_refreshing := false, last_error := last_error },
    history := history,
    old_price := item.current_price,
    old_stock := item.in_stock }

/-- Modelled from the spec: `_update_item_in_db` of the latest
app/services/scheduler_service.py (absent from the source files; only its
tests remain), §4.5 of the spec. -/
def updateItemInDb (item : Item) (ext_price : Option ℚ) (ext_stock : Option Bool)
    (price_confidence stock_confidence : ℚ) (thr : Thresholds)
    (screenshot_path : String) (md : Metadata) (now : ℚ) :
    Except String UpdateResult :=
  match decidePrice item ext_price price_confidence thr with
  | .divzero => .error "float division by zero"
  | d => .ok (applyUpdate item d ext_stock price_confidence stock_confidence thr
      screenshot_path md now)

deriving instance DecidableEq for Except

/-! ## Notification trigger (src/app/services/notification_service.py:48-96) -/

/-- Which alert fires; delivery content is the external sender's concern. -/
inductive Alert where
  | priceDrop
  | targetPrice
  | stockChange
  deriving DecidableEq, Repr

/-- Python truthiness of an optional number: `None` and `0` are falsy
(the walrus guard `(target := item_data.get("target_price")) and …`). -/
def ratTruthy : Option ℚ → Bool
  | none => false
  | some q => q != 0

/-- `NotificationService.send_item_notifications`
(src/app/services/notification_service.py:48-96), reduced to its decision:
which alerts are sent for `(item_data, price, old_price, in_stock, old_stock)`.
The price-drop percentage uses rational division (the `old_price = 0` edge,
reachable only with a negative new price, would raise in Python). -/
def send_item_notifications (item : Item) (price old_price : Option ℚ)
    (in_stock old_stock : Option Bool) : List Alert :=
  match item.notification_profile with
  | none => []
  | some profile =>
    let dropAlert :=
      match price, old_price with
      | some p, some op =>
        if profile.notify_on_price_drop ∧ p < op ∧
            profile.price_drop_threshold_percent ≤ (op - p) / op * 100 then
          [Alert.priceDrop]
        else []
      | _, _ => []
    let targetAlert :=
      match price with
      | some p =>
        if profile.notify_on_target_price ∧ ratTruthy item.target_price = true ∧
            p ≤ item.target_price.getD 0 then
          [Alert.targetPrice]
        else []
      | none => []
    let stockAlert :=
      match in_stock, old_stock with
      | some b, some ob =>
        if profile.notify_on_stock_change ∧ b ≠ ob then [Alert.stockChange] else []
      | _, _ => []
    dropAlert ++ targetAlert ++ stockAlert

/-! ## Scrape session (src/app/scraper.py:13-184) -/

/-- The external effects one `scrape_item` call can observe: connection and
context setup (may raise), navigation (its failure is caught inline and
scraping proceeds), the body text read (its failure is caught, leaving the
text empty), and the final screenshot call (its exception reaches the
function's catch-all). -/
structure ScrapeEnv where
  connect : Except String Unit
  navOk : Bool
  bodyText : Except String String
  screenshot : Except String Unit
  eventLoopTime : String
  deriving DecidableEq, Repr

/-- `scrape_item` (src/app/scraper.py:13-184): validate inputs, connect,
navigate (failures tolerated), dismiss popups and focus the price region
(all advisory), optionally extract bounded body text, then screenshot; any
exception escaping the `try` yields `(None, "")`. -/
def scrape_item (env : ScrapeEnv) (url : String) (_selector : Option String)
    (item_id : Option Nat) (_smart_scroll : Bool) (scroll_pixels : Int)
    (text_length : Int) (timeout : Int) : Option String × String :=
  let _scroll_pixels := if scroll_pixels ≤ 0 then (350 : Int) else scroll_pixels
  let _timeout := if timeout ≤ 0 then (90000 : Int) else timeout
  match env.connect with
  | .error _ => (none, "")
  | .ok _ =>
    let page_text :=
      if 0 < text_length then
        match env.bodyText with
        | .ok t => t.take text_length.toNat
        | .error _ => ""
      else ""
    let filename :=
      match item_id with
      | some i =>
        if i ≠ 0 then "screenshots/item_" ++ toString i ++ ".png"
        else "screenshots/" ++ ((url.splitOn "//").getLastD url).replace "/" "_" ++
          "_" ++ env.eventLoopTime ++ ".png"
      | none => "screenshots/" ++ ((url.splitOn "//").getLastD url).replace "/" "_" ++
          "_" ++ env.eventLoopTime ++ ".png"
    match env.screenshot with
    | .error _ => (none, "")
    | .ok _ => (some filename, page_text)

/-! ## Check executor and dispatcher -/

/-- Everything one executor run produces: the item's final state, history rows
written, whether the AI client was invoked, and the alerts sent. -/
structure CheckResult where
  item : Item
  history : List HistoryRow
  aiInvoked : Bool
  alerts : List Alert
  deriving DecidableEq, Repr

/-- The executor's error path: clear `is_refreshing`, record the message
(src/app/services/scheduler_service.py:192-204); the latest revision also
advances `last_checked` there (tests/test_scheduler_error.py asserts it). -/
def errorResult (item : Item) (aiInvoked : Bool) (msg : String) (now : ℚ) : CheckResult :=
  let failed := { item with
    is_refreshing := false, last_error := some msg, last_checked := some now }
  { item := failed, history := [], aiInvoked := aiInvoked, alerts := [] }

/-- One executor run on a fetched item: scrape, fail fast on a missing
screenshot, extract, update through `updateItemInDb`, then notify with the
extracted values against the pre-check snapshot; every exception funnels into
`errorResult` (src/app/services/scheduler_service.py:68-204, with the update
step of the latest revision). -/
def runCheck (item : Item) (scrape : Except String (Option String × String))
    (ai : Option ((Option ℚ × Option Bool × ℚ × ℚ) × Metadata))
    (thr : Thresholds) (now : ℚ) : CheckResult :=
  match scrape with
  | .error e => errorResult item false e now
  | .ok (none, _) => errorResult item false "Failed to capture screenshot" now
  | .ok (some shot, _text) =>
    match ai with
    | none => errorResult item true "AI analysis failed to return a result" now
    | some ((price, in_stock, pc, sc), md) =>
      match updateItemInDb item price in_stock pc sc thr shot md now with
      | .error e => errorResult item true e now
      | .ok r =>
        { item := r.item, history := r.history, aiInvoked := true,
          alerts := send_item_notifications item price r.old_price in_stock r.old_stock }

/-- `process_item_check`: `None` when the item id resolves to no row, else one
`runCheck` (src/app/services/scheduler_service.py:16-204). -/
def process_item_check (item : Option Item)
    (scrape : Except String (Option String × String))
    (ai : Option ((Option ℚ × Option Bool × ℚ × ℚ) × Metadata))
    (thr : Thresholds) (now : ℚ) : Option CheckResult :=
  match item with
  | none => none
  | some it => some (runCheck it scrape ai thr now)

/-- The per-item environment a heartbeat tick meets: the row the executor
fetches, the scrape outcome and the AI outcome for that item. -/
structure CheckEnv where
  lookup : Option Item
  scrape : Except String (Option String × String)
  ai : Option ((Option ℚ × Option Bool × ℚ × ℚ) × Metadata)

/-- The dispatch loop of `scheduled_refresh`
(src/app/services/scheduler_service.py:239-244): every due item's check is
invoked in turn; the executor returns normally on every input, so no item's
failure reaches the loop. -/
def scheduled_refresh (due : List (Nat × Int × Int)) (env : Nat → CheckEnv)
    (thr : Thresholds) (now : ℚ) : List (Nat × Option CheckResult) :=
  due.map fun e =>
    (e.1, process_item_check (env e.1).lookup (env e.1).scrape (env e.1).ai thr now)

/-! ## AI client retry policy (src/app/services/ai_service.py:196-267) -/

/-- Exceptions `acompletion` may raise at `call_llm`. -/
inductive PyExn where
  | timeoutError
  | connectionError
  | authenticationError
  | badRequestError
  deriving DecidableEq, Repr

/-- `retry_if_exception_type((TimeoutError, ConnectionError))`. -/
def retryable : PyExn → Bool
  | .timeoutError => true
  | .connectionError => true
  | _ => false

/-- One attempt's outcome: a response whose `content` may be `None`, or an
exception. -/
inductive LLMOutcome where
  | ok (content : Option String)
  | exn (e : PyExn)
  deriving DecidableEq, Repr

/-- What a `call_llm` invocation did: its result, how many `acompletion`
attempts ran, and the backoff waits slept between them. -/
structure CallResult where
  result : Except PyExn String
  attempts : Nat
  waits : List ℚ
  deriving DecidableEq, Repr

/-- `wait_exponential(multiplier=1, min=2, max=10)`: the sleep after the n-th
failed attempt (1-based) is `2^n` seconds clamped into `[2, 10]`. -/
def expWait (n : Nat) : ℚ :=
  pyMin 10 (pyMax 2 ((2 ^ n : ℕ) : ℚ))

/-- `AIService.call_llm` under its tenacity decorator
(src/app/services/ai_service.py:196-267): `stop_after_attempt(3)` unrolled.
A response ends the call at once with `content or ""` — an empty content is
returned, not retried; a retryable exception sleeps and retries until the
third attempt, then re-raises (`reraise=True`); any other exception re-raises
immediately. -/
def call_llm (outcomes : Nat → LLMOutcome) : CallResult :=
  match outcomes 0 with
  | .ok c => ⟨.ok (c.getD ""), 1, []⟩
  | .exn e0 =>
    if retryable e0 then
      match outcomes 1 with
      | .ok c => ⟨.ok (c.getD ""), 2, [expWait 1]⟩
      | .exn e1 =>
        if retryable e1 then
          match outcomes 2 with
          | .ok c => ⟨.ok (c.getD ""), 3, [expWait 1, expWait 2]⟩
          | .exn e2 => ⟨.error e2, 3, [expWait 1, expWait 2]⟩
        else ⟨.error e1, 2, [expWait 1]⟩
    else ⟨.error e0, 1, []⟩

/-! ## Concrete fixtures used by examples and witnesses -/

/-- A profile with every toggle on and a 10% price-drop threshold. -/
def profileOn : NotificationProfile :=
  { apprise_url := "mailto://user@example.com", notify_on_price_drop := true,
    price_drop_threshold_percent := 10, notify_on_target_price := true,
    notify_on_stock_change := true, check_interval_minutes := some 120 }

/-- A neutral active item, fields overridden per scenario. -/
def baseItem : Item :=
  { id := 1, is_active := true, is_refreshing := false,
    check_interval_minutes := none, notification_profile := none,
    last_checked := none, current_price := none,
    current_price_confidence := none, in_stock := none,
    in_stock_confidence := none, target_price := none, last_error := none }

/-- An item carrying just an interval triple: the optional item interval and,
when the middle component is present, a profile with the given interval. -/
def intervalItem (itemInt : Option Int) (profInt : Option (Option Int)) : Item :=
  { baseItem with
    check_interval_minutes := itemInt,
    notification_profile := profInt.map fun n => { profileOn with check_interval_minutes := n } }

/-! ## C2: effective interval hierarchy -/

/-- C2. The Due-Item Selector's effective interval equals the spec's
item → profile → global hierarchy (present-and-non-zero wins, result clamped
to at least 5 minutes) on every (item, profile, global) triple; in particular
(30, 120, 60) resolves to 30, (None, 120, 60) to 120, (None, None, 60) to 60,
and (1, None, 60) to 5; and the result is never below 5. -/
theorem effective_interval_hierarchy :
    (∀ (it : Item) (g : Int),
      effectiveInterval it g =
        specEffectiveInterval it.check_interval_minutes (profileInterval it) g) ∧
    effectiveInterval (intervalItem (some 30) (some (some 120))) 60 = 30 ∧
    effectiveInterval (intervalItem none (some (some 120))) 60 = 120 ∧
    effectiveInterval (intervalItem none none) 60 = 60 ∧
    effectiveInterval (intervalItem (some 1) none) 60 = 5 ∧
    (∀ (it : Item) (g : Int), 5 ≤ effectiveInterval it g) := by
  refine ⟨?_, by decide, by decide, by decide, by decide, ?_⟩
  · intro it g
    unfold effectiveInterval specEffectiveInterval profileInterval specPick
    cases hi : it.check_interval_minutes with
    | none =>
      cases hp : it.notification_profile with
      | none => simp [intTruthy, intOrElse]
      | some p =>
        cases hq : p.check_interval_minutes with
        | none => simp [intTruthy, intOrElse, hq]
        | some m =>
          by_cases hm : m = 0 <;> simp [intTruthy, intOrElse, hq, hm]
    | some n =>
      by_cases hn : n = 0
      · subst hn
        cases hp : it.notification_profile with
        | none => simp [intTruthy, intOrElse]
        | some p =>
          cases hq : p.check_interval_minutes with
          | none => simp [intTruthy, intOrElse, hq]
          | some m =>
            by_cases hm : m = 0 <;> simp [intTruthy, intOrElse, hq, hm]
      · simp [intTruthy, intOrElse, hn]
  · intro it g
    exact le_max_right _ 5

/-! ## C3: items mid-refresh are never selected -/

/-- C3. An item with `is_refreshing = true` is never due — its `dueEntry` is
`none` whatever its `last_checked` (including never checked) — and every
entry the Due-Item Selector returns comes from an item whose `is_refreshing`
is false. -/
theorem refreshing_item_never_selected :
    (∀ (g : Int) (now : ℚ) (it : Item), it.is_refreshing = true →
      dueEntry g now it = none) ∧
    (∀ (items : List Item) (g : Int) (now : ℚ) (e : Nat × Int × Int),
      e ∈ get_due_items items g now →
      ∃ it, it ∈ items ∧ it.id = e.1 ∧ it.is_refreshing = false) := by
  constructor
  · intro g now it h
    unfold dueEntry
    simp [h]
  · intro items g now e he
    unfold get_due_items at he
    rcases List.mem_filterMap.mp he with ⟨it, hmem, hdue⟩
    refine ⟨it, (List.mem_filter.mp hmem).1, ?_, ?_⟩
    · unfold dueEntry at hdue
      by_cases hr : it.is_refreshing
      · simp [hr] at hdue
      · simp only [hr, if_false, Bool.false_eq_true] at hdue
        cases hlc : it.last_checked with
        | none =>
          rw [hlc] at hdue
          simp only [Option.some.injEq] at hdue
          rw [← hdue]
        | some t =>
          rw [hlc] at hdue
          by_cases ht : ((effectiveInterval it g : ℚ) ≤ now - t)
          · simp only [ht, if_true, Option.some.injEq] at hdue
            rw [← hdue]
          · simp [ht] at hdue
    · by_cases hr : it.is_refreshing
      · unfold dueEntry at hdue
        simp [hr] at hdue
      · simpa using hr

/-! ## C8: extraction-result bounds -/

/-- Clamping into the unit interval is sound for every input shape. -/
lemma clamp_confidence_bounds (v : JVal) (c : ℚ) (h : clamp_confidence v = .ok c) :
    0 ≤ c ∧ c ≤ 1 := by
  have unit : ∀ q : ℚ, 0 ≤ clamp01 q ∧ clamp01 q ≤ 1 := by
    intro q
    unfold clamp01 pyMax pyMin
    split_ifs <;> constructor <;> linarith
  cases v with
  | jnull =>
    simp only [clamp_confidence, Except.ok.injEq] at h
    subst h
    norm_num
  | jnum q =>
    simp only [clamp_confidence, Except.ok.injEq] at h
    subst h
    exact unit q
  | jbool b =>
    simp only [clamp_confidence, Except.ok.injEq] at h
    subst h
    exact unit _
  | jstr s =>
    simp only [clamp_confidence] at h
    cases hp : parseSignedFloat s with
    | none => rw [hp] at h; cases h
    | some q =>
      rw [hp] at h
      simp only [Except.ok.injEq] at h
      subst h
      exact unit q

/-- A digits-and-dot string parses to a non-negative rational. -/
lemma parseDigitsDotFloat_nonneg (s : String) (q : ℚ)
    (h : parseDigitsDotFloat s = some q) : 0 ≤ q := by
  unfold parseDigitsDotFloat at h
  split at h
  · split at h
    · simp only [Option.some.injEq] at h
      subst h
      positivity
    · cases h
  · split at h
    · simp only [Option.some.injEq] at h
      subst h
      positivity
    · cases h
  · cases h

/-- A price parsed from a string input is non-negative: the stripping keeps
only digits and dots. -/
lemma normalize_price_str_nonneg (s : String) (q : ℚ)
    (h : normalize_price (.jstr s) = .ok (some q)) : 0 ≤ q := by
  simp only [normalize_price] at h
  split at h
  · cases h
  · split at h
    · cases h
    · split at h
      · rename_i q' hq
        simp only [Except.ok.injEq, Option.some.injEq] at h
        subst h
        exact parseDigitsDotFloat_nonneg _ _ hq
      · cases h

/-- C8 counterexample: a numeric model output of `-5` passes the schema with
`price = -5`, a negative value — the claim's "price, whenever non-null, is a
non-negative number" fails on numeric inputs (only string inputs are stripped
to digits). -/
theorem negative_price_passes_schema :
    mkAIExtractionResponse (.jnum (-5)) .jnull (.jnum 1) (.jnum 1) "USD" "image" =
      .ok { price := some (-5), currency := "USD", in_stock := none,
            price_confidence := 1, in_stock_confidence := 1, source_type := .image } ∧
    ¬ (0 : ℚ) ≤ -5 := by
  constructor
  · decide
  · norm_num

/-- C8 (amended). Every `AIExtractionResponse` leaving the client has both
confidences in [0,1] (inputs below 0 clamp to 0.0, above 1 to 1.0, null to
0.0); the price, whenever non-null and parsed from a string or null input, is
non-negative, while a numeric price input passes through unchanged (and may
be negative). -/
theorem extraction_result_bounds (p st c1 c2 : JVal) (cur srcT : String)
    (r : AIExtractionResponse)
    (h : mkAIExtractionResponse p st c1 c2 cur srcT = .ok r) :
    (0 ≤ r.price_confidence ∧ r.price_confidence ≤ 1 ∧
      0 ≤ r.in_stock_confidence ∧ r.in_stock_confidence ≤ 1) ∧
    (∀ s q, p = .jstr s → r.price = some q → 0 ≤ q) ∧
    (p = .jnull → r.price = none) ∧
    (∀ q, p = .jnum q → r.price = some q) ∧
    clamp_confidence .jnull = .ok 0 ∧
    (∀ x : ℚ, x < 0 → clamp_confidence (.jnum x) = .ok 0) ∧
    (∀ x : ℚ, 1 < x → clamp_confidence (.jnum x) = .ok 1) := by
  unfold mkAIExtractionResponse at h
  split at h
  · rename_i pv pc sc sty hp hc1 hc2 hsrc
    split at h
    · simp only [Except.ok.injEq] at h
      subst h
      refine ⟨?_, ?_, ?_, ?_, ?_, ?_, ?_⟩
      · obtain ⟨h1, h2⟩ := clamp_confidence_bounds c1 pc hc1
        obtain ⟨h3, h4⟩ := clamp_confidence_bounds c2 sc hc2
        exact ⟨h1, h2, h3, h4⟩
      · intro s q hs hq
        subst hs
        simp only at hq
        rw [hq] at hp
        exact normalize_price_str_nonneg s q hp
      · intro hn
        subst hn
        simp only [normalize_price, Except.ok.injEq] at hp
        exact hp.symm
      · intro q hq
        subst hq
        simp only [normalize_price, Except.ok.injEq] at hp
        exact hp.symm
      · rfl
      · intro x hx
        simp only [clamp_confidence, clamp01, pyMax, pyMin, Except.ok.injEq]
        split_ifs <;> linarith
      · intro x hx
        simp only [clamp_confidence, clamp01, pyMax, pyMin, Except.ok.injEq]
        split_ifs <;> linarith
    · exact Except.noConfusion h
  all_goals exact Except.noConfusion h

/-- The concrete response of the C8 witness. -/
def nullResponse : AIExtractionResponse :=
  { price := none, currency := "USD", in_stock := none,
    price_confidence := 0, in_stock_confidence := 0, source_type := .image }

/-- C8 witness: the amended bounds at a concrete, fully evaluated response
(all-null model output). -/
theorem extraction_result_bounds_witness :
    (0 ≤ nullResponse.price_confidence ∧ nullResponse.price_confidence ≤ 1 ∧
      0 ≤ nullResponse.in_stock_confidence ∧ nullResponse.in_stock_confidence ≤ 1) ∧
    (∀ s q, JVal.jnull = JVal.jstr s → nullResponse.price = some q → 0 ≤ q) ∧
    (JVal.jnull = JVal.jnull → nullResponse.price = none) ∧
    (∀ q, JVal.jnull = JVal.jnum q → nullResponse.price = some q) ∧
    clamp_confidence .jnull = .ok 0 ∧
    (∀ x : ℚ, x < 0 → clamp_confidence (.jnum x) = .ok 0) ∧
    (∀ x : ℚ, 1 < x → clamp_confidence (.jnum x) = .ok 1) :=
  extraction_result_bounds .jnull .jnull .jnull .jnull "USD" "image" nullResponse (by
    simp only [mkAIExtractionResponse, normalize_price, clamp_confidence,
      parseSourceType, normalize_stock, nullResponse]
    norm_num)

/-! ## C7: uncertain-but-accepted flag -/

/-- Every uncertainty message carries the `"Uncertain:"` marker. -/
lemma uncertainMsg_beginsWith (a b : ℚ) :
    beginsWith "Uncertain:" (uncertainMsg a b) = true := by
  unfold beginsWith uncertainMsg
  rw [ List.isPrefixOf_iff_prefix]
  have hu : "Uncertain:".toList <+: "Uncertain: Large price change (".toList := by decide
  refine hu.trans ?_
  simp only [String.toList, String.data_append, List.append_assoc]
  exact List.prefix_append _ _

/-- C7. A check on an item previously at price 100, extracting price 125 at
confidence 0.6 that meets the price threshold (a 25% change above the 20%
limit while confidence is below 0.7): the price 125 is accepted as current,
written to history, and `last_error` is set to an `"Uncertain:"` message
rather than cleared, while `last_checked` advances and `is_refreshing`
clears. -/
theorem uncertain_flag_on_large_change (it : Item) (stock : Option Bool)
    (sc thrP thrS : ℚ) (shot : String) (md : Metadata) (now : ℚ)
    (hprev : it.current_price = some 100) (hthr : thrP ≤ 3/5) :
    ∃ r, update_db it (some 125) stock (3/5) sc thrP thrS shot md now = .ok r ∧
      r.item.current_price = some 125 ∧
      (∃ hrow, r.history = [hrow] ∧ hrow.price = 125) ∧
      (∃ m, r.item.last_error = some m ∧ beginsWith "Uncertain:" m = true) ∧
      r.item.last_checked = some now ∧
      r.item.is_refreshing = false := by
  have hmsg : (20 : ℚ) < |125 - 100| / 100 * 100 ∧ (3/5 : ℚ) < 7/10 := by
    constructor <;> norm_num
  set msg := uncertainMsg (|(125:ℚ) - 100| / 100 * 100) (3/5) with hm
  have hbegins : beginsWith "Uncertain:" msg = true := by
    rw [hm]; exact uncertainMsg_beginsWith _ _
  have hkeep : keepUncertainError (some msg) = some msg := by
    simp only [keepUncertainError]
    rw [if_pos hbegins]
  have hdec : srcDecidePrice it (some 125) (3/5) thrP = .accept 125 (some msg) := by
    unfold srcDecidePrice
    dsimp only
    rw [if_pos hthr, hprev]
    dsimp only
    rw [if_neg (by norm_num : ¬(100:ℚ) = 0), if_pos hmsg]
  unfold update_db
  rw [hdec]
  dsimp only [srcApply]
  cases stock with
  | none =>
    exact ⟨_, rfl, rfl, ⟨_, rfl, rfl⟩, ⟨msg, hkeep, hbegins⟩, rfl, rfl⟩
  | some b =>
    dsimp only
    by_cases hs : thrS ≤ sc
    · rw [if_pos hs]
      exact ⟨_, rfl, rfl, ⟨_, rfl, rfl⟩, ⟨msg, hkeep, hbegins⟩, rfl, rfl⟩
    · rw [if_neg hs]
      exact ⟨_, rfl, rfl, ⟨_, rfl, rfl⟩, ⟨msg, hkeep, hbegins⟩, rfl, rfl⟩

/-- C7 witness: the uncertain flag at a concrete item. -/
theorem uncertain_flag_on_large_change_witness :
    ∃ r, update_db { baseItem with current_price := some 100 } (some 125) (some true)
        (3/5) (9/10) (1/2) (1/2) "screenshots/item_1.png"
        { model_name := "m", provider := "p", prompt_version := "v2.0", repair_used := false }
        2000 = .ok r ∧
      r.item.current_price = some 125 ∧
      (∃ hrow, r.history = [hrow] ∧ hrow.price = 125) ∧
      (∃ m, r.item.last_error = some m ∧ beginsWith "Uncertain:" m = true) ∧
      r.item.last_checked = some 2000 ∧
      r.item.is_refreshing = false :=
  uncertain_flag_on_large_change { baseItem with current_price := some 100 }
    (some true) (9/10) (1/2) (1/2) "screenshots/item_1.png"
    { model_name := "m", provider := "p", prompt_version := "v2.0", repair_used := false }
    2000 rfl (by norm_num)

/-! ## C1: outlier acceptance boundary -/

/-- An accepted price decision always writes the new price. -/
lemma applyUpdate_accept_price (it : Item) (p : ℚ) (unc : Option String)
    (stock : Option Bool) (pc sc : ℚ) (thr : Thresholds) (shot : String)
    (md : Metadata) (now : ℚ) :
    (applyUpdate it (.accept p unc) stock pc sc thr shot md now).item.current_price =
      some p := by
  unfold applyUpdate
  dsimp only
  cases stock with
  | none => rfl
  | some b =>
    dsimp only
    by_cases h : thr.stock ≤ sc
    · rw [if_pos h]
    · rw [if_neg h]

/-- A rejected price decision keeps the stored price, records the message,
advances `last_checked`, clears `is_refreshing` and writes no history. -/
lemma applyUpdate_reject (it : Item) (msg : String) (stock : Option Bool)
    (pc sc : ℚ) (thr : Thresholds) (shot : String) (md : Metadata) (now : ℚ) :
    (applyUpdate it (.reject msg) stock pc sc thr shot md now).item.current_price =
        it.current_price ∧
      (applyUpdate it (.reject msg) stock pc sc thr shot md now).item.last_error =
        some msg ∧
      (applyUpdate it (.reject msg) stock pc sc thr shot md now).item.last_checked =
        some now ∧
      (applyUpdate it (.reject msg) stock pc sc thr shot md now).item.is_refreshing =
        false ∧
      (applyUpdate it (.reject msg) stock pc sc thr shot md now).history = [] := by
  unfold applyUpdate
  dsimp only
  cases stock with
  | none => exact ⟨rfl, rfl, rfl, rfl, rfl⟩
  | some b =>
    dsimp only
    by_cases h : thr.stock ≤ sc
    · rw [if_pos h]
      exact ⟨rfl, rfl, rfl, rfl, rfl⟩
    · rw [if_neg h]
      exact ⟨rfl, rfl, rfl, rfl, rfl⟩

/-- C1. With outlier guarding enabled at threshold 50% and a previous accepted
price of 100, and a confident extraction (confidence meets the price
threshold): a new price of exactly 150 (a 50% increase) is accepted as the
current price, while 151 (more than 50%) is rejected outright — the prior
price 100 is retained, a human-readable error message is recorded, and
`last_checked` still advances (with `is_refreshing` cleared). -/
theorem outlier_boundary (it : Item) (conf : ℚ) (thr : Thresholds)
    (stock : Option Bool) (sc : ℚ) (shot : String) (md : Metadata) (now : ℚ)
    (hprev : it.current_price = some 100)
    (hen : thr.outlier_enabled = true) (hpct : thr.outlier_percent = 50)
    (hconf : thr.price ≤ conf) :
    (∃ r, updateItemInDb it (some 150) stock conf sc thr shot md now = .ok r ∧
      r.item.current_price = some 150) ∧
    (∃ r, updateItemInDb it (some 151) stock conf sc thr shot md now = .ok r ∧
      r.item.current_price = some 100 ∧
      (∃ m, r.item.last_error = some m) ∧
      r.item.last_checked = some now ∧
      r.item.is_refreshing = false) := by
  constructor
  · have hdec : ∃ unc, decidePrice it (some 150) conf thr = .accept 150 unc := by
      unfold decidePrice
      dsimp only
      rw [if_neg (not_lt.mpr hconf), hprev]
      dsimp only
      rw [if_neg (by norm_num : ¬(100:ℚ) = 0)]
      rw [if_neg (fun hc => absurd hc.2 (by rw [hpct]; norm_num))]
      by_cases hu : 20 < |(150:ℚ) - 100| / 100 * 100 ∧ conf < 7/10
      · rw [if_pos hu]
        exact ⟨_, rfl⟩
      · rw [if_neg hu]
        exact ⟨_, rfl⟩
    obtain ⟨unc, hdec⟩ := hdec
    refine ⟨applyUpdate it (.accept 150 unc) stock conf sc thr shot md now, ?_, ?_⟩
    · unfold updateItemInDb
      rw [hdec]
    · exact applyUpdate_accept_price it 150 unc stock conf sc thr shot md now
  · have hdec : decidePrice it (some 151) conf thr =
        .reject (outlierRejectMsg ((151 - 100) / 100 * 100) thr.outlier_percent) := by
      unfold decidePrice
      dsimp only
      rw [if_neg (not_lt.mpr hconf), hprev]
      dsimp only
      rw [if_neg (by norm_num : ¬(100:ℚ) = 0)]
      rw [if_pos ⟨hen, by rw [hpct]; norm_num⟩]
    obtain ⟨hcp, herr, hlc, hrf, -⟩ :=
      applyUpdate_reject it (outlierRejectMsg ((151 - 100) / 100 * 100) thr.outlier_percent)
        stock conf sc thr shot md now
    refine ⟨applyUpdate it
        (.reject (outlierRejectMsg ((151 - 100) / 100 * 100) thr.outlier_percent))
        stock conf sc thr shot md now, ?_, ?_, ⟨_, herr⟩, hlc, hrf⟩
    · unfold updateItemInDb
      rw [hdec]
    · rw [hcp, hprev]

/-- C1 witness: the boundary at a concrete item with thresholds
(price 0.5, stock 0.5, outlier 50%, enabled) and confidence 0.9. -/
theorem outlier_boundary_witness :
    (∃ r, updateItemInDb { baseItem with current_price := some 100 } (some 150)
        (some true) (9/10) (9/10)
        { price := 1/2, stock := 1/2, outlier_percent := 50, outlier_enabled := true }
        "screenshots/item_1.png"
        { model_name := "m", provider := "p", prompt_version := "v2.0", repair_used := false }
        2000 = .ok r ∧ r.item.current_price = some 150) ∧
    (∃ r, updateItemInDb { baseItem with current_price := some 100 } (some 151)
        (some true) (9/10) (9/10)
        { price := 1/2, stock := 1/2, outlier_percent := 50, outlier_enabled := true }
        "screenshots/item_1.png"
        { model_name := "m", provider := "p", prompt_version := "v2.0", repair_used := false }
        2000 = .ok r ∧
      r.item.current_price = some 100 ∧
      (∃ m, r.item.last_error = some m) ∧
      r.item.last_checked = some 2000 ∧
      r.item.is_refreshing = false) :=
  outlier_boundary { baseItem with current_price := some 100 } (9/10)
    { price := 1/2, stock := 1/2, outlier_percent := 50, outlier_enabled := true }
    (some true) (9/10) "screenshots/item_1.png"
    { model_name := "m", provider := "p", prompt_version := "v2.0", repair_used := false }
    2000 rfl rfl rfl (by norm_num)

/-! ## C4: the mutual-exclusion flag clears on every terminal path -/

/-- Whatever the price decision, the written-back item has a cleared
`is_refreshing` flag. -/
lemma applyUpdate_is_refreshing (it : Item) (d : PDecision) (stock : Option Bool)
    (pc sc : ℚ) (thr : Thresholds) (shot : String) (md : Metadata) (now : ℚ) :
    (applyUpdate it d stock pc sc thr shot md now).item.is_refreshing = false := rfl

/-- A successful update step always clears `is_refreshing`. -/
lemma updateItemInDb_ok_is_refreshing (it : Item) (price : Option ℚ)
    (stock : Option Bool) (pc sc : ℚ) (thr : Thresholds) (shot : String)
    (md : Metadata) (now : ℚ) (r : UpdateResult)
    (h : updateItemInDb it price stock pc sc thr shot md now = .ok r) :
    r.item.is_refreshing = false := by
  unfold updateItemInDb at h
  cases hd : decidePrice it price pc thr <;> rw [hd] at h <;>
    first
    | exact Except.noConfusion h
    | · injection h with h
        rw [← h]
        exact applyUpdate_is_refreshing ..

/-- C4. On an existing item, the Check Executor clears `is_refreshing` on
every terminal path — successful update, rejection, and error alike — and the
failure paths record a human-visible error. -/
theorem refresh_flag_always_cleared (it : Item)
    (scrape : Except String (Option String × String))
    (ai : Option ((Option ℚ × Option Bool × ℚ × ℚ) × Metadata))
    (thr : Thresholds) (now : ℚ) :
    process_item_check (some it) scrape ai thr now =
        some (runCheck it scrape ai thr now) ∧
    (runCheck it scrape ai thr now).item.is_refreshing = false ∧
    (∀ e, scrape = .error e →
      (runCheck it scrape ai thr now).item.last_error = some e) ∧
    (∀ t, scrape = .ok (none, t) →
      (runCheck it scrape ai thr now).item.last_error =
        some "Failed to capture screenshot") := by
  refine ⟨rfl, ?_, ?_, ?_⟩
  · unfold runCheck
    cases scrape with
    | error e => rfl
    | ok pair =>
      obtain ⟨shot, text⟩ := pair
      cases shot with
      | none => rfl
      | some sh =>
        dsimp only
        cases ai with
        | none => rfl
        | some ex =>
          obtain ⟨⟨price, stock, pc, sc⟩, md⟩ := ex
          dsimp only
          cases hu : updateItemInDb it price stock pc sc thr sh md now with
          | error e => rfl
          | ok r => exact updateItemInDb_ok_is_refreshing it price stock pc sc thr sh md now r hu
  · intro e he
    subst he
    rfl
  · intro t ht
    subst ht
    rfl

/-! ## C5: per-item failures never reach the dispatcher -/

/-- C5. A heartbeat tick invokes the Check Executor for every due item — the
list of processed ids is exactly the due list, whatever each item's
environment does — and an item whose scrape raises has that exception caught
and recorded as its `last_error` (with `is_refreshing` cleared) instead of
escaping to the dispatcher. -/
theorem per_item_failure_isolated (due : List (Nat × Int × Int))
    (env : Nat → CheckEnv) (thr : Thresholds) (now : ℚ) :
    ((scheduled_refresh due env thr now).map Prod.fst = due.map fun e => e.1) ∧
    (∀ e ∈ due, ∀ it msg, (env e.1).lookup = some it → (env e.1).scrape = .error msg →
      ∃ r, (e.1, some r) ∈ scheduled_refresh due env thr now ∧
        r.item.last_error = some msg ∧ r.item.is_refreshing = false) := by
  constructor
  · unfold scheduled_refresh
    rw [List.map_map]
    rfl
  · intro e he it msg hl hs
    refine ⟨runCheck it (env e.1).scrape (env e.1).ai thr now, ?_, ?_, ?_⟩
    · unfold scheduled_refresh
      refine List.mem_map.mpr ⟨e, he, ?_⟩
      rw [hl]
      rfl
    · rw [hs]
      rfl
    · rw [hs]
      rfl

/-! ## C6: scraper failure contract and executor fail-fast -/

/-- C6. `scrape_item` returns `(screenshot_path, page_text)` and every failure
of the session or of the final screenshot yields `(none, "")` without
raising — whenever the screenshot slot is empty, the text is empty too; and
in the Check Executor a null screenshot path fails the whole check at once,
recording the error, without ever invoking the AI client. -/
theorem scrape_failure_contract :
    (∀ env url sel iid ss sp tl tmo,
      (scrape_item env url sel iid ss sp tl tmo).1 = none →
      scrape_item env url sel iid ss sp tl tmo = (none, "")) ∧
    (∀ env url sel iid ss sp tl tmo e, env.connect = .error e →
      scrape_item env url sel iid ss sp tl tmo = (none, "")) ∧
    (∀ env url sel iid ss sp tl tmo e, env.screenshot = .error e →
      scrape_item env url sel iid ss sp tl tmo = (none, "")) ∧
    (∀ (it : Item) (t : String) ai (thr : Thresholds) (now : ℚ),
      (runCheck it (.ok (none, t)) ai thr now).item.last_error =
          some "Failed to capture screenshot" ∧
      (runCheck it (.ok (none, t)) ai thr now).aiInvoked = false ∧
      (runCheck it (.ok (none, t)) ai thr now).item.is_refreshing = false) := by
  refine ⟨?_, ?_, ?_, ?_⟩
  · intro env url sel iid ss sp tl tmo h
    unfold scrape_item at h ⊢
    cases hc : env.connect with
    | error e => rfl
    | ok u =>
      rw [hc] at h
      dsimp only at h
      cases hsc : env.screenshot with
      | error e => rfl
      | ok u2 =>
        rw [hsc] at h
        dsimp only at h
        exact Option.noConfusion h
  · intro env url sel iid ss sp tl tmo e hc
    unfold scrape_item
    rw [hc]
  · intro env url sel iid ss sp tl tmo e hsc
    unfold scrape_item
    cases hc : env.connect with
    | error e2 => rfl
    | ok u =>
      dsimp only
      rw [hsc]
  · intro it t ai thr now
    exact ⟨rfl, rfl, rfl⟩

/-! ## C9: AI retry policy -/

/-- Every backoff wait is bounded into the configured `[2, 10]` window. -/
lemma expWait_bounds (n : Nat) : 2 ≤ expWait n ∧ expWait n ≤ 10 := by
  have hnn : (0 : ℚ) ≤ ((2 ^ n : ℕ) : ℚ) := Nat.cast_nonneg _
  unfold expWait pyMin pyMax
  split_ifs <;> constructor <;> linarith

/-- C9 counterexample: an empty-content response on the first attempt is
returned as `""` after a single attempt, with no retry — even though the
second attempt would have succeeded. The claim's "responses with empty
content are retried up to 3 total attempts" fails on this input. -/
theorem empty_content_not_retried :
    call_llm (fun i => if i = 0 then .ok none else .ok (some "recovered")) =
      { result := .ok "", attempts := 1, waits := [] } ∧
    (fun i => if i = 0 then LLMOutcome.ok none else .ok (some "recovered")) 1 =
      .ok (some "recovered") := by
  constructor <;> rfl

/-- C9 (amended). `call_llm` makes at most 3 attempts; every attempt it
retried had raised a timeout or connection error (so non-transient failures
and empty-content responses are never retried); the waits slept between
attempts are exponential backoff values bounded into [2s, 10s]; a
non-transient exception on the first attempt re-raises at once; a response —
empty content included — ends the call at once as `content or ""`; and two
consecutive transient failures drive the call to its third and final
attempt. -/
theorem retry_policy (outcomes : Nat → LLMOutcome) :
    (1 ≤ (call_llm outcomes).attempts ∧ (call_llm outcomes).attempts ≤ 3) ∧
    (∀ i, i + 1 < (call_llm outcomes).attempts →
      ∃ e, outcomes i = .exn e ∧ retryable e = true) ∧
    ((call_llm outcomes).waits.length = (call_llm outcomes).attempts - 1 ∧
      ∀ w ∈ (call_llm outcomes).waits, 2 ≤ w ∧ w ≤ 10) ∧
    (∀ e, outcomes 0 = .exn e → retryable e = false →
      call_llm outcomes = ⟨.error e, 1, []⟩) ∧
    (∀ c, outcomes 0 = .ok c → call_llm outcomes = ⟨.ok (c.getD ""), 1, []⟩) ∧
    (∀ e e', outcomes 0 = .exn e → retryable e = true →
      outcomes 1 = .exn e' → retryable e' = true →
      (call_llm outcomes).attempts = 3) := by
  rcases h0 : outcomes 0 with c0 | e0
  · have hc : call_llm outcomes = ⟨.ok (c0.getD ""), 1, []⟩ := by
      unfold call_llm
      rw [h0]
    rw [hc]
    dsimp only
    refine ⟨⟨le_refl 1, by norm_num⟩, ?_, ⟨rfl, by simp⟩, ?_, ?_, ?_⟩
    · intro i hi
      omega
    · intro e he
      exact LLMOutcome.noConfusion he
    · intro c hcc
      injection hcc with hcc
      rw [hcc]
    · intro e e' he
      exact LLMOutcome.noConfusion he
  · by_cases hr0 : retryable e0 = true
    · rcases h1 : outcomes 1 with c1 | e1
      · have hc : call_llm outcomes = ⟨.ok (c1.getD ""), 2, [expWait 1]⟩ := by
          unfold call_llm
          rw [h0]
          dsimp only
          rw [if_pos hr0, h1]
        rw [hc]
        dsimp only
        refine ⟨⟨by norm_num, by norm_num⟩, ?_, ⟨rfl, ?_⟩, ?_, ?_, ?_⟩
        · intro i hi
          have hi0 : i = 0 := by omega
          subst hi0
          exact ⟨e0, h0, hr0⟩
        · intro w hw
          rw [List.mem_singleton] at hw
          rw [hw]
          exact expWait_bounds 1
        · intro e he hne
          injection he with he
          rw [he] at hr0
          rw [hr0] at hne
          exact Bool.noConfusion hne
        · intro c hcc
          exact LLMOutcome.noConfusion hcc
        · intro e e' _ _ he1
          exact LLMOutcome.noConfusion he1
      · by_cases hr1 : retryable e1 = true
        · have hc : (call_llm outcomes).attempts = 3 ∧
              (call_llm outcomes).waits = [expWait 1, expWait 2] := by
            unfold call_llm
            rw [h0]
            dsimp only
            rw [if_pos hr0, h1]
            dsimp only
            rw [if_pos hr1]
            rcases outcomes 2 with c2 | e2 <;> exact ⟨rfl, rfl⟩
          refine ⟨⟨?_, ?_⟩, ?_, ⟨?_, ?_⟩, ?_, ?_, ?_⟩
          · rw [hc.1]
            norm_num
          · rw [hc.1]
          · intro i hi
            rw [hc.1] at hi
            have hor : i = 0 ∨ i = 1 := by omega
            rcases hor with rfl | rfl
            · exact ⟨e0, h0, hr0⟩
            · exact ⟨e1, h1, hr1⟩
          · rw [hc.1, hc.2]
            rfl
          · intro w hw
            rw [hc.2] at hw
            rcases List.mem_cons.mp hw with rfl | hw
            · exact expWait_bounds 1
            · rw [List.mem_singleton] at hw
              rw [hw]
              exact expWait_bounds 2
          · intro e he hne
            injection he with he
            rw [he] at hr0
            rw [hr0] at hne
            exact Bool.noConfusion hne
          · intro c hcc
            exact LLMOutcome.noConfusion hcc
          · intro e e' _ _ _ _
            exact hc.1
        · have hc : call_llm outcomes = ⟨.error e1, 2, [expWait 1]⟩ := by
            unfold call_llm
            rw [h0]
            dsimp only
            rw [if_pos hr0, h1]
            dsimp only
            rw [if_neg hr1]
          rw [hc]
          dsimp only
          refine ⟨⟨by norm_num, by norm_num⟩, ?_, ⟨rfl, ?_⟩, ?_, ?_, ?_⟩
          · intro i hi
            have hi0 : i = 0 := by omega
            subst hi0
            exact ⟨e0, h0, hr0⟩
          · intro w hw
            rw [List.mem_singleton] at hw
            rw [hw]
            exact expWait_bounds 1
          · intro e he hne
            injection he with he
            rw [he] at hr0
            rw [hr0] at hne
            exact Bool.noConfusion hne
          · intro c hcc
            exact LLMOutcome.noConfusion hcc
          · intro e e' _ _ he1 hre1
            injection he1 with he1
            rw [he1] at hr1
            exact absurd hre1 hr1
    · have hc : call_llm outcomes = ⟨.error e0, 1, []⟩ := by
        unfold call_llm
        rw [h0]
        dsimp only
        rw [if_neg hr0]
      rw [hc]
      dsimp only
      refine ⟨⟨le_refl 1, by norm_num⟩, ?_, ⟨rfl, by simp⟩, ?_, ?_, ?_⟩
      · intro i hi
        omega
      · intro e he _
        injection he with he
        rw [he]
      · intro c hcc
        exact LLMOutcome.noConfusion hcc
      · intro e e' he hre
        injection he with he
        rw [he] at hr0
        exact absurd hre hr0

/-! ## C10: target-price alert -/

/-- An item whose configured target price is exactly 0, with every
notification toggle on. -/
def zeroTargetItem : Item :=
  { baseItem with notification_profile := some profileOn, target_price := some 0 }

/-- C10 counterexample: with the target-price toggle on, a configured target
price of 0 and an extracted price of 0 (which is ≤ the target), the alert
does not fire — `target_price = 0` is falsy under the walrus guard
`(target := item_data.get("target_price")) and price <= target` — refuting
the claim's "including a configured target of 0". -/
theorem target_zero_never_fires :
    zeroTargetItem.target_price = some 0 ∧
    zeroTargetItem.notification_profile = some profileOn ∧
    profileOn.notify_on_target_price = true ∧
    (0 : ℚ) ≤ 0 ∧
    Alert.targetPrice ∉ send_item_notifications zeroTargetItem (some 0) none none none := by
  refine ⟨rfl, rfl, rfl, le_refl 0, ?_⟩
  intro hmem
  unfold send_item_notifications at hmem
  dsimp only [zeroTargetItem, baseItem] at hmem
  rw [List.mem_append, List.mem_append] at hmem
  rcases hmem with (h | h) | h
  · simp at h
  · rw [if_neg (fun hc => by
      have := hc.2.1
      simp [ratTruthy] at this)] at h
    simp at h
  · simp at h

/-- C10 (amended). The target-price alert fires exactly when the profile's
toggle is on, the new price is known, a target price is configured on the
item and is non-zero, and the new price is at or below the target; when the
toggle is off, no target is configured, the target is 0 (Python falsiness),
or the price exceeds the target, it does not fire. -/
theorem target_price_alert_iff (it : Item) (price old_price : Option ℚ)
    (in_stock old_stock : Option Bool) :
    Alert.targetPrice ∈ send_item_notifications it price old_price in_stock old_stock ↔
      ∃ pr, it.notification_profile = some pr ∧ pr.notify_on_target_price = true ∧
        ∃ p, price = some p ∧ ∃ t, it.target_price = some t ∧ t ≠ 0 ∧ p ≤ t := by
  unfold send_item_notifications
  cases hpr : it.notification_profile with
  | none => simp
  | some pr =>
    dsimp only
    rw [List.mem_append, List.mem_append]
    have hdrop : Alert.targetPrice ∉
        (match price, old_price with
          | some p, some op =>
            if pr.notify_on_price_drop ∧ p < op ∧
                pr.price_drop_threshold_percent ≤ (op - p) / op * 100 then
              [Alert.priceDrop]
            else []
          | _, _ => ([] : List Alert)) := by
      split
      · split
        · simp
        · simp
      · simp
    have hstock : Alert.targetPrice ∉
        (match in_stock, old_stock with
          | some b, some ob =>
            if pr.notify_on_stock_change ∧ b ≠ ob then [Alert.stockChange] else []
          | _, _ => ([] : List Alert)) := by
      split
      · split
        · simp
        · simp
      · simp
    constructor
    · rintro ((h | h) | h)
      · exact absurd h hdrop
      · revert h
        cases hp : price with
        | none => simp
        | some p =>
          dsimp only
          split
          · rename_i hcond
            intro _
            obtain ⟨htgl, htru, hle⟩ := hcond
            cases ht : it.target_price with
            | none => rw [ht] at htru; simp [ratTruthy] at htru
            | some t =>
              rw [ht] at htru hle
              refine ⟨pr, rfl, htgl, p, rfl, t, rfl, ?_, ?_⟩
              · intro h0
                rw [h0] at htru
                simp [ratTruthy] at htru
              · simpa using hle
          · simp
      · exact absurd h hstock
    · rintro ⟨pr', hpr', htgl, p, hp, t, ht, ht0, hle⟩
      injection hpr' with hpr'
      subst hpr'
      subst hp
      refine Or.inl (Or.inr ?_)
      dsimp only
      have hcond : pr.notify_on_target_price = true ∧ ratTruthy it.target_price = true ∧
          p ≤ it.target_price.getD 0 := by
        refine ⟨htgl, ?_, ?_⟩
        · rw [ht]
          simp [ratTruthy, ht0]
        · rw [ht]
          simpa using hle
      rw [if_pos hcond]
      exact List.mem_singleton.mpr rfl

end Pricecious
